import Mathlib

/-!
Formal model of the NaextroNotes gallery script (`script.js`): date parsing,
flattening of the nested note collection, combined subject/date filtering,
grouped rendering, and statistics, together with proofs about the documented
behaviour of these operations.

JavaScript strings are manipulated as `List Char` (the `data` of a `String`);
every function is a direct transcription of the corresponding function in
`script.js`.  `new Date(s).getTime()` returning `NaN` (an invalid date) is
modelled by `Option Int` with `none` for `NaN`, and a thrown `TypeError` is
modelled by `Except.error`.
-/

namespace NaextroNotes

/-- Model of JavaScript `str.split('-')`: split on every occurrence of `'-'`,
keeping empty pieces; the result is always nonempty (`"".split('-')` is
`[""]`). -/
def splitDash : List Char → List (List Char)
  | [] => [[]]
  | c :: cs =>
    if c = '-' then [] :: splitDash cs
    else (c :: (splitDash cs).headD []) :: (splitDash cs).tail

/-- Model of JavaScript `s.padStart(2, '0')`. -/
def padStart2 (s : List Char) : List Char :=
  if 2 ≤ s.length then s else List.replicate (2 - s.length) '0' ++ s

/-- Decimal digit test. -/
def isDig (c : Char) : Bool := '0' ≤ c && c ≤ '9'

/-- Decimal value of a digit string, as JavaScript reads the numeric fields
of a conforming ISO date string. -/
def digitsToNat (s : List Char) : Nat :=
  s.foldl (fun n c => n * 10 + (c.toNat - 48)) 0

/-- Gregorian leap-year test. -/
def isLeapYear (y : Nat) : Bool := y % 4 = 0 && (y % 100 != 0 || y % 400 = 0)

/-- Number of days of month `m` in year `y`. -/
def daysInMonth (y m : Nat) : Nat :=
  if m = 2 then (if isLeapYear y then 29 else 28)
  else if m = 4 || m = 6 || m = 9 || m = 11 then 30
  else 31

/-- Days from 1970-01-01 to the civil date `y-m-d` in the proleptic Gregorian
calendar (standard era-based civil-date arithmetic). -/
def daysFromCivil (y m d : Nat) : Int :=
  let yy := if m ≤ 2 then y + 399 else y + 400
  let era := yy / 400
  let yoe := yy % 400
  let mp := if 2 < m then m - 3 else m + 9
  let doy := (153 * mp + 2) / 5 + (d - 1)
  let doe := yoe * 365 + yoe / 4 - yoe / 100 + doy
  (era : Int) * 146097 + (doe : Int) - 865565

/-- The host timezone offset that `new Date("...T00:00:00")` (local midnight)
adds to the UTC day boundary, in milliseconds.  The offset is
environment-specific; it is modelled as the fixed constant `0` (a UTC host),
which affects no ordering or consistency property proved below. -/
def tzOffsetMillis : Int := 0

/-- Model of `new Date(iso ++ "T00:00:00").getTime()` for the strings this
program constructs: a conforming `YYYY-MM-DD` date (four-digit year,
two-digit month and day, month and day in calendar range) yields the epoch
milliseconds of that civil date at local midnight; any other string is an
invalid date, i.e. a `NaN` time value, modelled as `none`. -/
def jsDateTs (iso : List Char) : Option Int :=
  match splitDash iso with
  | [ys, ms, ds] =>
    if ys.length = 4 && ms.length = 2 && ds.length = 2
        && ys.all isDig && ms.all isDig && ds.all isDig then
      let y := digitsToNat ys
      let m := digitsToNat ms
      let d := digitsToNat ds
      if 1 ≤ m && m ≤ 12 && 1 ≤ d && d ≤ daysInMonth y m then
        some (daysFromCivil y m d * 86400000 + tzOffsetMillis)
      else none
    else none
  | _ => none

/-- Result record of `parseDDMMYYYY`: `{ iso, ts, raw }`.  `ts = none` models
a `NaN` timestamp (invalid date). -/
structure ParseResult where
  iso : List Char
  ts : Option Int
  raw : String
deriving DecidableEq, Repr

/-- Model of `parseDDMMYYYY` (script.js lines 7-15): split the input on
`'-'`; return `null` unless there are exactly three components; zero-pad day
and month to two characters; build the ISO string `yyyy-mm-dd` and take its
time value. -/
def parseDDMMYYYY (s : String) : Option ParseResult :=
  match splitDash s.data with
  | [dd, mm, yyyy] =>
    let dd2 := padStart2 dd
    let mm2 := padStart2 mm
    let iso := yyyy ++ '-' :: mm2 ++ '-' :: dd2
    some { iso := iso, ts := jsDateTs iso, raw := s }
  | _ => none

/-- `{ subject, images }` of the data model. -/
structure SubjectGroup where
  subject : String
  images : List String
deriving DecidableEq, Repr

/-- `{ date, subjects }` of the data model; a `NoteCollection` is a
`List DateGroup`. -/
structure DateGroup where
  date : String
  subjects : List SubjectGroup
deriving DecidableEq, Repr

/-- Flattened `{ date, subject, path }` record. -/
structure FlatRecord where
  date : String
  subject : String
  path : String
deriving DecidableEq, Repr

/-- Model of `getFlattenedImages` (script.js lines 24-32): nested `forEach`
loops pushing `{date, subject, path}` records onto an accumulator array. -/
def getFlattenedImages (data : List DateGroup) : List FlatRecord :=
  data.foldl
    (fun arr d =>
      d.subjects.foldl
        (fun arr s =>
          s.images.foldl (fun arr p => arr ++ [⟨d.date, s.subject, p⟩]) arr)
        arr)
    []

/-- Insertion of `a` into `l` before the first element `b` with
`le a b = true`. -/
def insertBy (le : α → α → Bool) (a : α) : List α → List α
  | [] => [a]
  | b :: l => if le a b then a :: b :: l else b :: insertBy le a l

/-- Stable sort modelling `Array.prototype.sort(cmp)`.  ECMAScript sorts are
stable, and on a consistent comparator every stable comparison sort computes
the same permutation, so insertion sort is a faithful model there; `le a b`
models the sort's placement decision `cmp(a, b) <= 0`. -/
def insertionSortBy (le : α → α → Bool) : List α → List α
  | [] => []
  | a :: l => insertBy le a (insertionSortBy le l)

/-- One rendered date section of the grouped renderer: the enriched record
`{ raw, dateObj, subjects }` built at script.js line 102. -/
structure Enriched where
  raw : String
  dateObj : Option ParseResult
  subjects : List SubjectGroup
deriving DecidableEq, Repr

/-- The comparator `(a, b) => b.dateObj.ts - a.dateObj.ts` of the grouped
renderer (line 103), as the sort's placement decision `cmp(a,b) <= 0`.  A
`NaN` difference (an invalid timestamp on either side) is neither positive
nor negative, so the sort treats the pair as tied: modelled as `true`.  The
`dateObj = none` branches are unreachable after the `dateObj !== null`
filter. -/
def leDescEnriched (a b : Enriched) : Bool :=
  match a.dateObj, b.dateObj with
  | some pa, some pb =>
    match pa.ts, pb.ts with
    | some ta, some tb => decide (tb - ta ≤ 0)
    | _, _ => true
  | _, _ => true

/-- The enrichment map of the grouped renderer (script.js line 102):
`d => ({ raw: d.date, dateObj: parseDDMMYYYY(d.date), subjects: d.subjects })`. -/
def enrich (d : DateGroup) : Enriched :=
  { raw := d.date, dateObj := parseDDMMYYYY d.date, subjects := d.subjects }

/-- Model of `renderGroupedImages` (script.js lines 98-147), as the ordered
list of date sections appended to the container: enrich each group with its
parsed date, drop the `null` parses (`filter(x => x.dateObj !== null)`),
sort with the descending-timestamp comparator, and emit one section per
surviving group (its subjects and images in stored order). -/
def renderGroupedImages (data : List DateGroup) : List Enriched :=
  insertionSortBy leDescEnriched
    ((data.map enrich).filter (fun x => x.dateObj.isSome))

/-- The timestamp of a rendered section, with `0` standing in for an absent
one (only used under hypotheses making every timestamp present). -/
def tsE (e : Enriched) : Int := (e.dateObj.bind ParseResult.ts).getD 0

/-- The filter inputs read by `applyCombinedFilter`: the two toggles of the
global `filterState` and the current values of the subject/day/month/year
dropdowns (`""` is the `Any` option). -/
structure FilterState where
  subjectEnabled : Bool
  dateEnabled : Bool
  subjectValue : String
  dayValue : String
  monthValue : String
  yearValue : String
deriving DecidableEq, Repr

/-- Model of `getSelectedSubject` (script.js lines 252-256): `null` unless
the subject filter is enabled and a non-empty subject is selected. -/
def getSelectedSubject (fs : FilterState) : Option String :=
  if fs.subjectEnabled then
    (if fs.subjectValue = "" then none else some fs.subjectValue)
  else none

/-- The `{ day, month, year }` record returned by `getSelectedDateFilters`. -/
structure DateFilters where
  day : String
  month : String
  year : String
deriving DecidableEq, Repr

/-- Model of `getSelectedDateFilters` (script.js lines 257-267): `null`
unless the date filter is enabled and at least one of day/month/year is
selected. -/
def getSelectedDateFilters (fs : FilterState) : Option DateFilters :=
  if fs.dateEnabled then
    (if fs.dayValue = "" ∧ fs.monthValue = "" ∧ fs.yearValue = "" then none
     else some ⟨fs.dayValue, fs.monthValue, fs.yearValue⟩)
  else none

/-- The date predicate of `applyCombinedFilter` (script.js lines 279-287):
destructure `dItem.date.split('-')` into day/month/year (a missing component
is `undefined`, which is `===`-unequal to every dropdown string) and require
each selected field to match its component by string equality. -/
def dateMatches (df : DateFilters) (date : String) : Bool :=
  let parts := splitDash date.data
  (df.day == "" || parts[0]? == some df.day.data)
  && (df.month == "" || parts[1]? == some df.month.data)
  && (df.year == "" || parts[2]? == some df.year.data)

/-- The date-filtering stage of `applyCombinedFilter` (script.js lines
277-288): `if (filterState.date && dateFilters) filteredData =
filteredData.filter(...)`. -/
def applyDateStage (fs : FilterState) (data : List DateGroup) : List DateGroup :=
  match getSelectedDateFilters fs with
  | some df =>
    if fs.dateEnabled then data.filter (fun g => dateMatches df g.date) else data
  | none => data

/-- The `map` callback of the subject stage (script.js lines 292-294):
`{...dItem, subjects: dItem.subjects.filter(s => s.subject === subject)}`. -/
def shrinkTo (subj : String) (g : DateGroup) : DateGroup :=
  { g with subjects := g.subjects.filter (fun s => s.subject == subj) }

/-- The `filter` callback of the subject stage (script.js line 295):
`dItem.subjects.length > 0`. -/
def hasSubjects (g : DateGroup) : Bool :=
  decide (0 < g.subjects.length)

/-- The subject-filtering stage of `applyCombinedFilter` (script.js lines
290-295): shrink each group to the subject groups matching the selection,
then drop groups left with no subject group. -/
def applySubjectStage (fs : FilterState) (data : List DateGroup) : List DateGroup :=
  match getSelectedSubject fs with
  | some subj =>
    if fs.subjectEnabled then (data.map (shrinkTo subj)).filter hasSubjects
    else data
  | none => data

/-- Model of `applyCombinedFilter` (script.js lines 270-300): copy the
global collection (`galleryData.slice()`), apply the date stage, then the
subject stage; the result is handed to the grouped renderer (line 299),
modelled by `renderGroupedImages`. -/
def applyCombinedFilter (data : List DateGroup) (fs : FilterState) : List DateGroup :=
  applySubjectStage fs (applyDateStage fs data)

/-- `applyCombinedFilter` together with the final value of the global
`galleryData`: the body copies the global with `slice()` and then uses only
non-mutating array operations (`filter`, `map`, object spread) on the copy
and never assigns the global, so the global's final value is its initial
value. -/
def runApplyCombinedFilter (galleryData : List DateGroup) (fs : FilterState) :
    List DateGroup × List DateGroup :=
  (galleryData, applyCombinedFilter galleryData fs)

/-- JavaScript `Array.from(new Set(xs))`: first occurrences in insertion
order. -/
def dedupFirst [BEq α] (l : List α) : List α :=
  l.foldl (fun acc a => if acc.contains a then acc else acc ++ [a]) []

/-- The timestamp a date string contributes to the statistics sort:
`parseDDMMYYYY(s).ts`, which is `none` when the parse itself is `null` or
its timestamp is `NaN`. -/
def tsOfDate (s : String) : Option Int :=
  (parseDDMMYYYY s).bind ParseResult.ts

/-- The ascending comparator `(a, b) => parseDDMMYYYY(a).ts -
parseDDMMYYYY(b).ts` of `calculateStats` (script.js lines 328-332), as the
sort's placement decision `cmp(a,b) <= 0`; a `NaN` difference ties. -/
def leAscDate (a b : String) : Bool :=
  match tsOfDate a, tsOfDate b with
  | some ta, some tb => decide (ta - tb ≤ 0)
  | _, _ => true

/-- Model of `dates.sort((a, b) => { const dateA = parseDDMMYYYY(a); const
dateB = parseDDMMYYYY(b); return dateA.ts - dateB.ts; })` (script.js lines
328-332).  The comparator dereferences `.ts` on the parse result without a
null check, so it raises `TypeError` as soon as it receives a date whose
parse is `null`.  A comparison sort of two or more elements passes every
element to the comparator at least once (run detection alone compares every
adjacent pair), while on at most one element the comparator is never
invoked.  `Except.error ()` models the raised `TypeError`. -/
def sortDatesJs (dates : List String) : Except Unit (List String) :=
  if dates.length ≤ 1 then .ok dates
  else if dates.all (fun d => (parseDDMMYYYY d).isSome) then
    .ok (insertionSortBy leAscDate dates)
  else .error ()

/-- One step of the `subjectBreakdown` accumulation (script.js lines
338-341): increment the subject's count in place, or append a fresh entry. -/
def bumpCount (acc : List (String × Nat)) (s : String) : List (String × Nat) :=
  if acc.any (fun p => p.1 == s) then
    acc.map (fun p => if p.1 == s then (p.1, p.2 + 1) else p)
  else acc ++ [(s, 1)]

/-- The record returned by `calculateStats`. -/
structure Stats where
  totalImages : Nat
  uniqueSubjects : Nat
  uniqueDates : Nat
  oldestDate : String
  newestDate : String
  subjectBreakdown : List (String × Nat)
deriving DecidableEq, Repr

/-- JavaScript `x || 'N/A'` on an optional array entry: `undefined` and the
empty string are both falsy. -/
def orNA (s : Option String) : String :=
  match s with
  | some s => if s = "" then "N/A" else s
  | none => "N/A"

/-- The distinct date strings of the flattened collection, i.e.
`Array.from(new Set(flattenedImages.map(img => img.date)))` (script.js line
327). -/
def statsDates (data : List DateGroup) : List String :=
  dedupFirst ((getFlattenedImages data).map FlatRecord.date)

/-- Model of `calculateStats` (script.js lines 321-351) applied to
`flattenedImages = getFlattenedImages(galleryData)` (the wiring of
`fetchData`, line 48).  `Except.error ()` models the `TypeError` raised by
the date sort when it meets a `null` parse. -/
def calculateStats (data : List DateGroup) : Except Unit Stats :=
  match sortDatesJs (statsDates data) with
  | .error e => .error e
  | .ok sortedDates =>
    .ok
      { totalImages := (getFlattenedImages data).length
        uniqueSubjects := (dedupFirst ((getFlattenedImages data).map FlatRecord.subject)).length
        uniqueDates := (statsDates data).length
        oldestDate := orNA sortedDates.head?
        newestDate := orNA sortedDates.getLast?
        subjectBreakdown := (getFlattenedImages data).foldl (fun acc r => bumpCount acc r.subject) [] }

/-- Claim C3's retention predicate, stated from the specification's words:
the date string splits into components whose day (first), month (second) and
year (third) components are string-equal to every selected non-empty
field. -/
def specDateMatch (df : DateFilters) (date : String) : Prop :=
  (df.day ≠ "" → (splitDash date.data)[0]? = some df.day.data)
  ∧ (df.month ≠ "" → (splitDash date.data)[1]? = some df.month.data)
  ∧ (df.year ≠ "" → (splitDash date.data)[2]? = some df.year.data)

instance (df : DateFilters) (date : String) : Decidable (specDateMatch df date) := by
  unfold specDateMatch; infer_instance

/-- Claim C4's description of the subject stage, stated from the
specification's words: keep in each date group exactly the subject groups
whose subject equals the selected value, and drop a date group if and only
if none of its subject groups survive. -/
def specSubjectStage (subj : String) (data : List DateGroup) : List DateGroup :=
  data.filterMap fun g =>
    let kept := g.subjects.filter (fun s => s.subject == subj)
    if kept.isEmpty then none else some { g with subjects := kept }

/-- Total number of images of a collection: the sum over its date groups of
the sum over their subject groups of the image counts. -/
def countImages (data : List DateGroup) : Nat :=
  (data.map (fun g => (g.subjects.map (fun s => s.images.length)).sum)).sum

/-- A collection with one malformed date (`"bad"` has one `'-'`-component)
and one well-formed date, each contributing an image. -/
def statsCexData : List DateGroup :=
  [ { date := "bad", subjects := [{ subject := "S", images := ["a.jpg"] }] },
    { date := "01-02-2020", subjects := [{ subject := "T", images := ["b.jpg"] }] } ]

/-- A collection with three distinct dates, one of them malformed. -/
def statsWitData : List DateGroup :=
  [ { date := "10-10-2025", subjects := [{ subject := "Chemistry", images := ["c.jpg"] }] },
    { date := "oops", subjects := [{ subject := "Physics", images := ["p.jpg"] }] },
    { date := "11-10-2025", subjects := [{ subject := "Biology", images := ["q.jpg"] }] } ]

/-- A collection whose middle date splits into three components but is not a
parseable calendar date (its timestamp is `NaN`), between two valid dates in
ascending order. -/
def renderCexData : List DateGroup :=
  [ { date := "01-01-2020", subjects := [{ subject := "A", images := ["a.jpg"] }] },
    { date := "xx-yy-zzzz", subjects := [{ subject := "B", images := ["b.jpg"] }] },
    { date := "15-06-2021", subjects := [{ subject := "C", images := ["c.jpg"] }] } ]

/-- Three valid dates out of order, for instantiating the renderer's sort
contract. -/
def renderWitData : List DateGroup :=
  [ { date := "10-10-2025", subjects := [{ subject := "Chemistry", images := ["c.jpg"] }] },
    { date := "21-12-2009", subjects := [{ subject := "Physics", images := ["p.jpg"] }] },
    { date := "15-06-2021", subjects := [{ subject := "Biology", images := ["q.jpg"] }] } ]

/-- The sample collection of the specification's test scenarios. -/
def scenarioData : List DateGroup :=
  [ { date := "10-10-2025", subjects := [{ subject := "Chemistry", images := ["a.jpg"] }] },
    { date := "11-10-2025", subjects := [{ subject := "Physics", images := ["b.jpg", "c.jpg"] }] } ]

/-- A filter state with both filters enabled, subject `"Physics"` selected
and month `"10"` selected. -/
def wfsBoth : FilterState :=
  { subjectEnabled := true, dateEnabled := true, subjectValue := "Physics",
    dayValue := "", monthValue := "10", yearValue := "" }

/-- A filter state with both filters disabled. -/
def wfsOff : FilterState :=
  { subjectEnabled := false, dateEnabled := false, subjectValue := "Physics",
    dayValue := "", monthValue := "10", yearValue := "" }

/-! ## Properties of the split, pad and digit helpers -/

theorem splitDash_ne_nil (s : List Char) : splitDash s ≠ [] := by
  cases s with
  | nil => simp [splitDash]
  | cons c cs =>
    unfold splitDash
    split <;> simp

theorem splitDash_of_not_mem (s : List Char) (h : '-' ∉ s) : splitDash s = [s] := by
  induction s with
  | nil => rfl
  | cons c cs ih =>
    have hc : c ≠ '-' := fun hc => h (hc ▸ List.mem_cons_self c cs)
    have hcs : '-' ∉ cs := fun hm => h (List.mem_cons_of_mem c hm)
    simp only [splitDash]
    rw [if_neg hc, ih hcs]
    rfl

theorem splitDash_append (a r : List Char) (h : '-' ∉ a) :
    splitDash (a ++ '-' :: r) = a :: splitDash r := by
  induction a with
  | nil => simp [splitDash]
  | cons c cs ih =>
    have hc : c ≠ '-' := fun hc => h (hc ▸ List.mem_cons_self c cs)
    have hcs : '-' ∉ cs := fun hm => h (List.mem_cons_of_mem c hm)
    rw [List.cons_append]
    simp only [splitDash]
    rw [if_neg hc, ih hcs]
    rfl

theorem not_mem_dash_of_all_isDig (s : List Char) (h : s.all isDig = true) : '-' ∉ s := by
  intro hm
  exact absurd (List.all_eq_true.mp h _ hm) (by decide)

theorem padStart2_length (s : List Char) (h1 : 1 ≤ s.length) (h2 : s.length ≤ 2) :
    (padStart2 s).length = 2 := by
  unfold padStart2
  split
  · omega
  · simp only [List.length_append, List.length_replicate]
    omega

theorem padStart2_all_isDig (s : List Char) (h : s.all isDig = true) :
    (padStart2 s).all isDig = true := by
  unfold padStart2
  split
  · exact h
  · rw [List.all_append, h, Bool.and_true]
    rw [List.all_eq_true]
    intro c hc
    rw [List.eq_of_mem_replicate hc]
    decide

theorem not_mem_dash_padStart2 (s : List Char) (h : '-' ∉ s) : '-' ∉ padStart2 s := by
  unfold padStart2
  split
  · exact h
  · intro hm
    rcases List.mem_append.mp hm with hm | hm
    · exact absurd (List.eq_of_mem_replicate hm) (by decide)
    · exact h hm

theorem foldl_digit_zero (k : Nat) :
    List.foldl (fun n c => n * 10 + (c.toNat - 48)) 0 (List.replicate k '0') = 0 := by
  induction k with
  | zero => rfl
  | succ n ih => simpa [List.replicate_succ] using ih

theorem digitsToNat_padStart2 (s : List Char) :
    digitsToNat (padStart2 s) = digitsToNat s := by
  unfold padStart2 digitsToNat
  split
  · rfl
  · rw [List.foldl_append, foldl_digit_zero]

/-! ## Properties of the date parser -/

theorem parseDDMMYYYY_eq_none_iff (s : String) :
    parseDDMMYYYY s = none ↔ (splitDash s.data).length ≠ 3 := by
  rcases h : splitDash s.data with _ | ⟨a, _ | ⟨b, _ | ⟨c, _ | ⟨d, t⟩⟩⟩⟩ <;>
    simp [parseDDMMYYYY, h]

theorem parseDDMMYYYY_isSome (s : String) :
    (parseDDMMYYYY s).isSome = ((splitDash s.data).length == 3) := by
  rcases hp : parseDDMMYYYY s with _ | p
  · have h := (parseDDMMYYYY_eq_none_iff s).mp hp
    simp [h]
  · have h3 : (splitDash s.data).length = 3 := by
      by_contra hne
      rw [(parseDDMMYYYY_eq_none_iff s).mpr hne] at hp
      cases hp
    simp [h3]

/-! ## Properties of the stable sort -/

theorem insertBy_nil (le : α → α → Bool) (a : α) : insertBy le a [] = [a] := rfl

theorem insertBy_cons (le : α → α → Bool) (a b : α) (l : List α) :
    insertBy le a (b :: l) = if le a b then a :: b :: l else b :: insertBy le a l := rfl

theorem mem_insertBy (le : α → α → Bool) (a x : α) (l : List α) :
    x ∈ insertBy le a l ↔ x = a ∨ x ∈ l := by
  induction l with
  | nil => simp [insertBy]
  | cons b t ih =>
    rw [insertBy_cons]
    split
    · simp [List.mem_cons]
    · simp [List.mem_cons, ih]
      tauto

theorem perm_insertBy (le : α → α → Bool) (a : α) (l : List α) :
    List.Perm (insertBy le a l) (a :: l) := by
  induction l with
  | nil => exact List.Perm.refl _
  | cons b t ih =>
    rw [insertBy_cons]
    split
    · exact List.Perm.refl _
    · exact (List.Perm.cons b ih).trans (List.Perm.swap a b t)

theorem perm_insertionSortBy (le : α → α → Bool) (l : List α) :
    List.Perm (insertionSortBy le l) l := by
  induction l with
  | nil => exact List.Perm.refl _
  | cons a t ih =>
    exact (perm_insertBy le a (insertionSortBy le t)).trans (List.Perm.cons a ih)

theorem mem_insertionSortBy (le : α → α → Bool) (l : List α) (x : α) :
    x ∈ insertionSortBy le l ↔ x ∈ l :=
  (perm_insertionSortBy le l).mem_iff

theorem pairwise_insertBy (le : α → α → Bool) (a : α) (l : List α)
    (hl : List.Pairwise (fun x y => le x y = true) l)
    (htot : ∀ b ∈ l, le a b = true ∨ le b a = true)
    (htrans : ∀ b ∈ l, ∀ c ∈ l, le a b = true → le b c = true → le a c = true) :
    List.Pairwise (fun x y => le x y = true) (insertBy le a l) := by
  induction l with
  | nil => simp [insertBy]
  | cons b t ih =>
    rcases List.pairwise_cons.mp hl with ⟨hb, ht⟩
    rw [insertBy_cons]
    by_cases hab : le a b = true
    · rw [if_pos hab]
      refine List.pairwise_cons.mpr ⟨?_, hl⟩
      intro x hx
      rcases List.mem_cons.mp hx with rfl | hxt
      · exact hab
      · exact htrans b (List.mem_cons_self b t) x (List.mem_cons_of_mem b hxt) hab (hb x hxt)
    · rw [if_neg hab]
      have hba : le b a = true := by
        rcases htot b (List.mem_cons_self b t) with h | h
        · exact absurd h hab
        · exact h
      refine List.pairwise_cons.mpr ⟨?_, ?_⟩
      · intro x hx
        rcases (mem_insertBy le a x t).mp hx with rfl | hxt
        · exact hba
        · exact hb x hxt
      · exact ih ht (fun c hc => htot c (List.mem_cons_of_mem b hc))
          (fun c hc d hd =>
            htrans c (List.mem_cons_of_mem b hc) d (List.mem_cons_of_mem b hd))

theorem pairwise_insertionSortBy (le : α → α → Bool) (l : List α)
    (htot : ∀ a ∈ l, ∀ b ∈ l, le a b = true ∨ le b a = true)
    (htrans : ∀ a ∈ l, ∀ b ∈ l, ∀ c ∈ l, le a b = true → le b c = true → le a c = true) :
    List.Pairwise (fun x y => le x y = true) (insertionSortBy le l) := by
  induction l with
  | nil => simp [insertionSortBy]
  | cons a t ih =>
    show List.Pairwise _ (insertBy le a (insertionSortBy le t))
    have hmem : ∀ x, x ∈ insertionSortBy le t → x ∈ t :=
      fun x hx => (mem_insertionSortBy le t x).mp hx
    apply pairwise_insertBy
    · exact ih
        (fun x hx y hy => htot x (List.mem_cons_of_mem a hx) y (List.mem_cons_of_mem a hy))
        (fun x hx y hy z hz =>
          htrans x (List.mem_cons_of_mem a hx) y (List.mem_cons_of_mem a hy)
            z (List.mem_cons_of_mem a hz))
    · exact fun b hb =>
        htot a (List.mem_cons_self a t) b (List.mem_cons_of_mem a (hmem b hb))
    · exact fun b hb c hc =>
        htrans a (List.mem_cons_self a t) b (List.mem_cons_of_mem a (hmem b hb))
          c (List.mem_cons_of_mem a (hmem c hc))

/-! ## Properties of the filter getters and stages -/

theorem getSelectedDateFilters_dateEnabled {fs : FilterState} {df : DateFilters}
    (h : getSelectedDateFilters fs = some df) : fs.dateEnabled = true := by
  by_contra hne
  unfold getSelectedDateFilters at h
  rw [if_neg hne] at h
  cases h

theorem getSelectedSubject_subjectEnabled {fs : FilterState} {subj : String}
    (h : getSelectedSubject fs = some subj) : fs.subjectEnabled = true := by
  by_contra hne
  unfold getSelectedSubject at h
  rw [if_neg hne] at h
  cases h

theorem getSelectedDateFilters_eq_some {fs : FilterState}
    (h1 : fs.dateEnabled = true)
    (h2 : ¬(fs.dayValue = "" ∧ fs.monthValue = "" ∧ fs.yearValue = "")) :
    getSelectedDateFilters fs = some ⟨fs.dayValue, fs.monthValue, fs.yearValue⟩ := by
  unfold getSelectedDateFilters
  rw [if_pos h1, if_neg h2]

theorem getSelectedSubject_eq_some {fs : FilterState}
    (h1 : fs.subjectEnabled = true) (h2 : fs.subjectValue ≠ "") :
    getSelectedSubject fs = some fs.subjectValue := by
  unfold getSelectedSubject
  rw [if_pos h1, if_neg h2]

theorem applyDateStage_eq_filter {fs : FilterState} {df : DateFilters}
    (h : getSelectedDateFilters fs = some df) (data : List DateGroup) :
    applyDateStage fs data = data.filter (fun g => dateMatches df g.date) := by
  have hd := getSelectedDateFilters_dateEnabled h
  simp [applyDateStage, h, hd]

theorem applyDateStage_eq_of_none {fs : FilterState}
    (h : getSelectedDateFilters fs = none) (data : List DateGroup) :
    applyDateStage fs data = data := by
  simp [applyDateStage, h]

theorem applySubjectStage_eq_filter {fs : FilterState} {subj : String}
    (h : getSelectedSubject fs = some subj) (data : List DateGroup) :
    applySubjectStage fs data = (data.map (shrinkTo subj)).filter hasSubjects := by
  have he := getSelectedSubject_subjectEnabled h
  simp [applySubjectStage, h, he]

theorem applySubjectStage_eq_of_none {fs : FilterState}
    (h : getSelectedSubject fs = none) (data : List DateGroup) :
    applySubjectStage fs data = data := by
  simp [applySubjectStage, h]

theorem shrinkTo_date (subj : String) (g : DateGroup) :
    (shrinkTo subj g).date = g.date := rfl

theorem shrinkTo_idem (subj : String) (g : DateGroup) :
    shrinkTo subj (shrinkTo subj g) = shrinkTo subj g := by
  unfold shrinkTo
  congr 1
  rw [List.filter_filter]
  exact List.filter_congr (fun x _ => Bool.and_self _)

theorem applyDateStage_idem (fs : FilterState) (data : List DateGroup) :
    applyDateStage fs (applyDateStage fs data) = applyDateStage fs data := by
  rcases h : getSelectedDateFilters fs with _ | df
  · rw [applyDateStage_eq_of_none h, applyDateStage_eq_of_none h]
  · rw [applyDateStage_eq_filter h, applyDateStage_eq_filter h, List.filter_filter]
    exact List.filter_congr (fun x _ => Bool.and_self _)

theorem applySubjectStage_idem (fs : FilterState) (data : List DateGroup) :
    applySubjectStage fs (applySubjectStage fs data) = applySubjectStage fs data := by
  rcases h : getSelectedSubject fs with _ | subj
  · rw [applySubjectStage_eq_of_none h, applySubjectStage_eq_of_none h]
  · rw [applySubjectStage_eq_filter h, applySubjectStage_eq_filter h]
    have hY : ∀ g ∈ (data.map (shrinkTo subj)).filter hasSubjects,
        shrinkTo subj g = id g := by
      intro g hg
      rcases List.mem_map.mp (List.mem_of_mem_filter hg) with ⟨g0, _, rfl⟩
      exact shrinkTo_idem subj g0
    rw [List.map_congr_left hY, List.map_id]
    exact List.filter_eq_self.mpr (fun g hg => List.of_mem_filter hg)

theorem stage_comm (fs : FilterState) (data : List DateGroup) :
    applyDateStage fs (applySubjectStage fs data) =
      applySubjectStage fs (applyDateStage fs data) := by
  rcases hd : getSelectedDateFilters fs with _ | df
  · rw [applyDateStage_eq_of_none hd, applyDateStage_eq_of_none hd]
  · rcases hs : getSelectedSubject fs with _ | subj
    · rw [applySubjectStage_eq_of_none hs, applySubjectStage_eq_of_none hs]
    · rw [applyDateStage_eq_filter hd, applyDateStage_eq_filter hd,
        applySubjectStage_eq_filter hs, applySubjectStage_eq_filter hs]
      calc ((data.map (shrinkTo subj)).filter hasSubjects).filter
              (fun g => dateMatches df g.date)
          = (data.map (shrinkTo subj)).filter
              (fun g => dateMatches df g.date && hasSubjects g) := by
            rw [List.filter_filter]
        _ = (data.map (shrinkTo subj)).filter
              (fun g => hasSubjects g && dateMatches df g.date) :=
            List.filter_congr (fun x _ => Bool.and_comm _ _)
        _ = ((data.map (shrinkTo subj)).filter
              (fun g => dateMatches df g.date)).filter hasSubjects := by
            rw [List.filter_filter]
        _ = ((data.filter ((fun g => dateMatches df g.date) ∘ shrinkTo subj)).map
              (shrinkTo subj)).filter hasSubjects := by
            rw [List.filter_map]
        _ = ((data.filter (fun g => dateMatches df g.date)).map
              (shrinkTo subj)).filter hasSubjects := rfl

/-! ## Properties of the flattener -/

theorem foldl_push (f : α → β) (l : List α) (arr : List β) :
    l.foldl (fun acc p => acc ++ [f p]) arr = arr ++ l.map f := by
  induction l generalizing arr with
  | nil => simp
  | cons a t ih => simp [ih]

theorem subjects_foldl_push (dDate : String) (subs : List SubjectGroup)
    (arr : List FlatRecord) :
    subs.foldl
      (fun arr s => s.images.foldl
        (fun arr p => arr ++ [⟨dDate, s.subject, p⟩]) arr) arr
      = arr ++ subs.flatMap (fun s => s.images.map (fun p => ⟨dDate, s.subject, p⟩)) := by
  induction subs generalizing arr with
  | nil => simp
  | cons s t ih =>
    simp only [List.foldl_cons, List.flatMap_cons]
    rw [foldl_push, ih, List.append_assoc]

theorem data_foldl_push (data : List DateGroup) (arr : List FlatRecord) :
    data.foldl
      (fun arr d => d.subjects.foldl
        (fun arr s => s.images.foldl
          (fun arr p => arr ++ [⟨d.date, s.subject, p⟩]) arr) arr) arr
      = arr ++ data.flatMap (fun d => d.subjects.flatMap
          (fun s => s.images.map (fun p => ⟨d.date, s.subject, p⟩))) := by
  induction data generalizing arr with
  | nil => simp
  | cons d t ih =>
    simp only [List.foldl_cons, List.flatMap_cons]
    rw [subjects_foldl_push, ih, List.append_assoc]

theorem getFlattenedImages_eq (data : List DateGroup) :
    getFlattenedImages data
      = data.flatMap (fun d => d.subjects.flatMap
          (fun s => s.images.map (fun p => ⟨d.date, s.subject, p⟩))) := by
  have h := data_foldl_push data []
  simpa [getFlattenedImages] using h

/-! ## Properties of the grouped renderer -/

theorem enrich_dateObj (d : DateGroup) : (enrich d).dateObj = parseDDMMYYYY d.date := rfl

theorem enrich_raw (d : DateGroup) : (enrich d).raw = d.date := rfl

theorem render_raws_perm (data : List DateGroup) :
    List.Perm ((renderGroupedImages data).map Enriched.raw)
      ((data.filter (fun g => (splitDash g.date.data).length == 3)).map DateGroup.date) := by
  unfold renderGroupedImages
  refine (List.Perm.map Enriched.raw (perm_insertionSortBy _ _)).trans ?_
  have heq : ((data.map enrich).filter (fun x => x.dateObj.isSome)).map Enriched.raw
      = (data.filter (fun g => (splitDash g.date.data).length == 3)).map DateGroup.date := by
    rw [List.filter_map, List.map_map]
    have h1 : data.filter ((fun x : Enriched => x.dateObj.isSome) ∘ enrich)
        = data.filter (fun g => (splitDash g.date.data).length == 3) :=
      List.filter_congr (fun g _ => parseDDMMYYYY_isSome g.date)
    rw [h1]
    exact List.map_congr_left (fun g _ => rfl)
  rw [heq]

theorem mem_render_ts_isSome (data : List DateGroup)
    (hvalid : ∀ g ∈ data, (splitDash g.date.data).length = 3 →
      (tsOfDate g.date).isSome = true) :
    ∀ x ∈ (data.map enrich).filter (fun x : Enriched => x.dateObj.isSome),
      (x.dateObj.bind ParseResult.ts).isSome = true := by
  intro x hx
  rcases List.mem_filter.mp hx with ⟨hxm, hxs⟩
  rcases List.mem_map.mp hxm with ⟨g, hg, rfl⟩
  have h3 : (splitDash g.date.data).length = 3 := by
    have hps := parseDDMMYYYY_isSome g.date
    rw [enrich_dateObj] at hxs
    rw [hxs] at hps
    exact eq_of_beq hps.symm
  exact hvalid g hg h3

theorem leDescEnriched_iff {x y : Enriched}
    (hx : (x.dateObj.bind ParseResult.ts).isSome = true)
    (hy : (y.dateObj.bind ParseResult.ts).isSome = true) :
    (leDescEnriched x y = true ↔ tsE y ≤ tsE x) := by
  rcases Option.isSome_iff_exists.mp hx with ⟨tx, htx⟩
  rcases Option.isSome_iff_exists.mp hy with ⟨ty, hty⟩
  rcases Option.bind_eq_some.mp htx with ⟨px, hpx, hpxt⟩
  rcases Option.bind_eq_some.mp hty with ⟨py, hpy, hpyt⟩
  have h1 : leDescEnriched x y = decide (ty - tx ≤ 0) := by
    simp only [leDescEnriched, hpx, hpy, hpxt, hpyt]
  have h2 : tsE x = tx := by
    show (x.dateObj.bind ParseResult.ts).getD 0 = tx
    rw [htx]
    rfl
  have h3 : tsE y = ty := by
    show (y.dateObj.bind ParseResult.ts).getD 0 = ty
    rw [hty]
    rfl
  rw [h1, h2, h3]
  constructor
  · intro h
    have := of_decide_eq_true h
    omega
  · intro h
    exact decide_eq_true (by omega)

theorem render_sorted (data : List DateGroup)
    (hvalid : ∀ g ∈ data, (splitDash g.date.data).length = 3 →
      (tsOfDate g.date).isSome = true) :
    List.Pairwise (fun a b => tsE b ≤ tsE a) (renderGroupedImages data) := by
  have hmem := mem_render_ts_isSome data hvalid
  unfold renderGroupedImages
  have hp := pairwise_insertionSortBy leDescEnriched
    ((data.map enrich).filter (fun x : Enriched => x.dateObj.isSome))
    (fun a ha b hb => by
      rcases Int.le_total (tsE b) (tsE a) with h | h
      · exact Or.inl ((leDescEnriched_iff (hmem a ha) (hmem b hb)).mpr h)
      · exact Or.inr ((leDescEnriched_iff (hmem b hb) (hmem a ha)).mpr h))
    (fun a ha b hb c hc hab hbc => by
      have h1 := (leDescEnriched_iff (hmem a ha) (hmem b hb)).mp hab
      have h2 := (leDescEnriched_iff (hmem b hb) (hmem c hc)).mp hbc
      exact (leDescEnriched_iff (hmem a ha) (hmem c hc)).mpr (le_trans h2 h1))
  refine List.Pairwise.imp_of_mem ?_ hp
  intro a b ha hb hab
  exact (leDescEnriched_iff
    (hmem a ((mem_insertionSortBy _ _ a).mp ha))
    (hmem b ((mem_insertionSortBy _ _ b).mp hb))).mp hab

/-! ## Further supporting lemmas -/

theorem dateMatches_iff (df : DateFilters) (date : String) :
    dateMatches df date = true ↔ specDateMatch df date := by
  unfold dateMatches specDateMatch
  simp only [Bool.and_eq_true, Bool.or_eq_true, beq_iff_eq]
  tauto

theorem map_filter_eq_filterMap (f : α → β) (p : β → Bool) (l : List α) :
    (l.map f).filter p = l.filterMap (fun a => if p (f a) then some (f a) else none) := by
  induction l with
  | nil => rfl
  | cons a t ih =>
    simp only [List.map_cons, List.filter_cons, List.filterMap_cons]
    by_cases h : p (f a)
    · simp [h, ih]
    · simp [h, ih]

theorem sublist_sum_le (l1 l2 : List Nat) (h : l1.Sublist l2) : l1.sum ≤ l2.sum := by
  induction h with
  | slnil => exact le_refl _
  | cons a h ih => simp only [List.sum_cons]; omega
  | cons₂ a h ih => simp only [List.sum_cons]; omega

theorem countImages_filter_le (p : DateGroup → Bool) (data : List DateGroup) :
    countImages (data.filter p) ≤ countImages data :=
  sublist_sum_le _ _ (List.Sublist.map _ (List.filter_sublist data))

theorem countImages_dateStage_le (fs : FilterState) (data : List DateGroup) :
    countImages (applyDateStage fs data) ≤ countImages data := by
  rcases h : getSelectedDateFilters fs with _ | df
  · rw [applyDateStage_eq_of_none h]
  · rw [applyDateStage_eq_filter h]
    exact countImages_filter_le _ data

theorem shrinkTo_count_le (subj : String) (g : DateGroup) :
    ((shrinkTo subj g).subjects.map (fun s => s.images.length)).sum
      ≤ (g.subjects.map (fun s => s.images.length)).sum :=
  sublist_sum_le _ _ (List.Sublist.map _ (List.filter_sublist _))

theorem countImages_subjectStage_le (fs : FilterState) (data : List DateGroup) :
    countImages (applySubjectStage fs data) ≤ countImages data := by
  rcases h : getSelectedSubject fs with _ | subj
  · rw [applySubjectStage_eq_of_none h]
  · rw [applySubjectStage_eq_filter h]
    calc countImages ((data.map (shrinkTo subj)).filter hasSubjects)
        ≤ countImages (data.map (shrinkTo subj)) := countImages_filter_le _ _
      _ ≤ countImages data := by
          unfold countImages
          rw [List.map_map]
          exact List.sum_le_sum (fun g _ => shrinkTo_count_le subj g)

theorem parseDDMMYYYY_of_split (s : String) (dd mm yyyy : List Char)
    (h : splitDash s.data = [dd, mm, yyyy]) :
    parseDDMMYYYY s
      = some { iso := yyyy ++ '-' :: (padStart2 mm ++ '-' :: padStart2 dd),
               ts := jsDateTs (yyyy ++ '-' :: (padStart2 mm ++ '-' :: padStart2 dd)),
               raw := s } := by
  simp only [parseDDMMYYYY, h]
  simp [List.cons_append]

theorem jsDateTs_of_split (iso ys ms ds : List Char)
    (h : splitDash iso = [ys, ms, ds])
    (h4 : ys.length = 4) (hm2 : ms.length = 2) (hd2 : ds.length = 2)
    (hya : ys.all isDig = true) (hma : ms.all isDig = true) (hda : ds.all isDig = true)
    (hm1 : 1 ≤ digitsToNat ms) (hm12 : digitsToNat ms ≤ 12)
    (hd1 : 1 ≤ digitsToNat ds)
    (hdm : digitsToNat ds ≤ daysInMonth (digitsToNat ys) (digitsToNat ms)) :
    jsDateTs iso
      = some (daysFromCivil (digitsToNat ys) (digitsToNat ms) (digitsToNat ds)
          * 86400000 + tzOffsetMillis) := by
  unfold jsDateTs
  rw [h]
  simp [h4, hm2, hd2, hya, hma, hda, hm1, hm12, hd1, hdm]

/-! ## The claims -/

/-- C1: counterexample.  On a collection that contains one malformed date
(`"bad"`) alongside a valid one, `calculateStats` raises the modelled
`TypeError` (the sort comparator dereferences `.ts` of the `null` parse)
instead of silently excluding the malformed date and returning a result. -/
theorem c1_counterexample : calculateStats statsCexData = Except.error () := rfl

/-- C1 (amended): the oldest/newest computation of the Stats Calculator does
not exclude malformed dates: whenever the collection's flattened records
contain at least two distinct date strings of which at least one is
malformed (does not split into exactly three components), the computation
raises a `TypeError` (modelled `Except.error`) rather than returning a
result. -/
theorem c1_stats_raise_on_malformed (data : List DateGroup)
    (h2 : 2 ≤ (statsDates data).length)
    (hbad : ∃ d ∈ statsDates data, parseDDMMYYYY d = none) :
    calculateStats data = Except.error () := by
  have hnot : ¬ ((statsDates data).all (fun d => (parseDDMMYYYY d).isSome) = true) := by
    intro hall
    obtain ⟨d, hd, hnone⟩ := hbad
    have h := List.all_eq_true.mp hall d hd
    rw [hnone] at h
    cases h
  have hs : sortDatesJs (statsDates data) = Except.error () := by
    unfold sortDatesJs
    rw [if_neg (by omega), if_neg hnot]
  unfold calculateStats
  rw [hs]

/-- Witness for C1's amended theorem on a concrete three-date collection. -/
theorem c1_stats_raise_on_malformed_witness :
    calculateStats statsWitData = Except.error () :=
  c1_stats_raise_on_malformed statsWitData (by decide) (by decide)

/-- C2: counterexample.  In a collection whose middle date `"xx-yy-zzzz"`
splits into three components but is not a parseable date (its timestamp is
`NaN`, on which the sort comparator ties every element), the rendered order
is the input order: the newest date `"15-06-2021"` is **not** placed first
(the output is not descending by timestamp), and the unparseable date is
rendered rather than excluded. -/
theorem c2_counterexample :
    (renderGroupedImages renderCexData).map Enriched.raw
        = ["01-01-2020", "xx-yy-zzzz", "15-06-2021"]
    ∧ ((renderGroupedImages renderCexData).map Enriched.raw).head? ≠ some "15-06-2021"
    ∧ tsOfDate "01-01-2020" = some 1577836800000
    ∧ tsOfDate "15-06-2021" = some 1623715200000
    ∧ tsOfDate "xx-yy-zzzz" = none := by decide

/-- C2 (amended): the grouped renderer excludes exactly the date groups
whose date string does not split into three `'-'`-separated components; when
every kept date also parses to a valid (non-`NaN`) timestamp the rendered
sections are ordered descending by that timestamp (newest first); in
particular rendering the two dates `"01-01-2020"` and `"15-06-2021"` places
`"15-06-2021"` first.  (Kept dates with `NaN` timestamps are rendered and
can break the descending order, as the counterexample shows.) -/
theorem c2_render_grouped_sorted :
    (∀ data : List DateGroup,
      List.Perm ((renderGroupedImages data).map Enriched.raw)
        ((data.filter (fun g => (splitDash g.date.data).length == 3)).map DateGroup.date))
    ∧ (∀ data : List DateGroup,
      (∀ g ∈ data, (splitDash g.date.data).length = 3 →
        (tsOfDate g.date).isSome = true) →
      List.Pairwise (fun a b => tsE b ≤ tsE a) (renderGroupedImages data))
    ∧ (∀ s1 s2 : List SubjectGroup,
      (renderGroupedImages
        [{ date := "01-01-2020", subjects := s1 },
         { date := "15-06-2021", subjects := s2 }]).map Enriched.raw
        = ["15-06-2021", "01-01-2020"]) :=
  ⟨render_raws_perm, render_sorted, fun s1 s2 => rfl⟩

/-- Witness for C2's amended theorem: three valid out-of-order dates render
sorted descending by timestamp. -/
theorem c2_render_grouped_sorted_witness :
    List.Pairwise (fun a b => tsE b ≤ tsE a) (renderGroupedImages renderWitData) :=
  c2_render_grouped_sorted.2.1 renderWitData (by decide)

/-- C3: with date filtering enabled and at least one of day/month/year
selected, the date stage retains exactly the date groups whose date string's
components are string-equal to every selected non-empty field; and with all
three fields empty the date filter acts as if disabled even when its toggle
is on. -/
theorem c3_date_filter_exact (data : List DateGroup) (fs : FilterState) :
    (fs.dateEnabled = true →
      ¬(fs.dayValue = "" ∧ fs.monthValue = "" ∧ fs.yearValue = "") →
      ∀ g, g ∈ applyDateStage fs data ↔
        g ∈ data ∧ specDateMatch ⟨fs.dayValue, fs.monthValue, fs.yearValue⟩ g.date)
    ∧ (fs.dayValue = "" → fs.monthValue = "" → fs.yearValue = "" →
      applyCombinedFilter data fs
        = applyCombinedFilter data { fs with dateEnabled := false }) := by
  constructor
  · intro h1 h2 g
    rw [applyDateStage_eq_filter (getSelectedDateFilters_eq_some h1 h2), List.mem_filter]
    exact and_congr_right (fun _ => dateMatches_iff _ _)
  · intro hd hm hy
    have h1 : getSelectedDateFilters fs = none := by
      unfold getSelectedDateFilters
      split
      · rw [if_pos ⟨hd, hm, hy⟩]
      · rfl
    have h2 : getSelectedDateFilters { fs with dateEnabled := false } = none := by
      unfold getSelectedDateFilters
      rw [if_neg (by simp)]
    show applySubjectStage fs (applyDateStage fs data)
        = applySubjectStage { fs with dateEnabled := false }
            (applyDateStage { fs with dateEnabled := false } data)
    rw [applyDateStage_eq_of_none h1, applyDateStage_eq_of_none h2]
    rfl

/-- Witness for C3 on the specification's sample data with month `"10"`
selected. -/
theorem c3_date_filter_exact_witness :
    (({ date := "10-10-2025",
        subjects := [{ subject := "Chemistry", images := ["a.jpg"] }] } : DateGroup)
        ∈ applyDateStage wfsBoth scenarioData ↔
      ({ date := "10-10-2025",
         subjects := [{ subject := "Chemistry", images := ["a.jpg"] }] } : DateGroup)
        ∈ scenarioData ∧
        specDateMatch ⟨wfsBoth.dayValue, wfsBoth.monthValue, wfsBoth.yearValue⟩
          "10-10-2025") :=
  (c3_date_filter_exact scenarioData wfsBoth).1 rfl (by decide) _

/-- C4: with subject filtering enabled and a subject selected, the subject
stage keeps in each retained date group exactly the subject groups whose
subject equals the selection, and drops a date group if and only if none of
its subject groups survive (as described by `specSubjectStage`). -/
theorem c4_subject_filter_exact (data : List DateGroup) (fs : FilterState)
    (h1 : fs.subjectEnabled = true) (h2 : fs.subjectValue ≠ "") :
    applySubjectStage fs data = specSubjectStage fs.subjectValue data := by
  rw [applySubjectStage_eq_filter (getSelectedSubject_eq_some h1 h2),
    map_filter_eq_filterMap]
  unfold specSubjectStage
  congr 1
  funext g
  show (if hasSubjects (shrinkTo fs.subjectValue g) = true
      then some (shrinkTo fs.subjectValue g) else none) = _
  by_cases h : (g.subjects.filter (fun s => s.subject == fs.subjectValue)) = []
  · simp [hasSubjects, shrinkTo, h]
  · simp [hasSubjects, shrinkTo, h, List.length_pos.mpr h]

/-- Witness for C4 on the specification's sample data with subject
`"Physics"` selected. -/
theorem c4_subject_filter_exact_witness :
    applySubjectStage wfsBoth scenarioData
      = specSubjectStage wfsBoth.subjectValue scenarioData :=
  c4_subject_filter_exact scenarioData wfsBoth rfl (by decide)

/-- C5: the Filter Engine is idempotent: applying `applyCombinedFilter`
twice with the same filter state equals applying it once. -/
theorem c5_filter_idempotent (data : List DateGroup) (fs : FilterState) :
    applyCombinedFilter (applyCombinedFilter data fs) fs
      = applyCombinedFilter data fs := by
  show applySubjectStage fs (applyDateStage fs
      (applySubjectStage fs (applyDateStage fs data)))
    = applySubjectStage fs (applyDateStage fs data)
  rw [stage_comm fs (applyDateStage fs data), applyDateStage_idem,
    applySubjectStage_idem]

/-- C6: the Filter Engine never increases the total image count. -/
theorem c6_filter_count_le (data : List DateGroup) (fs : FilterState) :
    countImages (applyCombinedFilter data fs) ≤ countImages data :=
  le_trans (countImages_subjectStage_le fs (applyDateStage fs data))
    (countImages_dateStage_le fs data)

/-- C7: the Date Parser returns its `null` marker iff the input does not
split into exactly three `'-'`-separated components; on every valid
`DD-MM-YYYY` input (components zero-padded or not) it zero-pads day and
month, builds the ISO string with component order `YYYY-MM-DD`, and its
timestamp is the epoch-millisecond value of that civil date at local
midnight. -/
theorem c7_parse_contract :
    (∀ s : String, parseDDMMYYYY s = none ↔ (splitDash s.data).length ≠ 3)
    ∧ (∀ dd mm yyyy : List Char,
        dd.all isDig = true → mm.all isDig = true → yyyy.all isDig = true →
        1 ≤ dd.length → dd.length ≤ 2 →
        1 ≤ mm.length → mm.length ≤ 2 →
        yyyy.length = 4 →
        1 ≤ digitsToNat mm → digitsToNat mm ≤ 12 →
        1 ≤ digitsToNat dd →
        digitsToNat dd ≤ daysInMonth (digitsToNat yyyy) (digitsToNat mm) →
        parseDDMMYYYY ⟨dd ++ '-' :: (mm ++ '-' :: yyyy)⟩
          = some { iso := yyyy ++ '-' :: (padStart2 mm ++ '-' :: padStart2 dd),
                   ts := some (daysFromCivil (digitsToNat yyyy) (digitsToNat mm)
                       (digitsToNat dd) * 86400000 + tzOffsetMillis),
                   raw := ⟨dd ++ '-' :: (mm ++ '-' :: yyyy)⟩ }) := by
  refine ⟨parseDDMMYYYY_eq_none_iff, ?_⟩
  intro dd mm yyyy hdda hmma hyya hd1 hd2 hm1 hm2 hy4 hmlo hmhi hdlo hdhi
  have hddnd : '-' ∉ dd := not_mem_dash_of_all_isDig dd hdda
  have hmmnd : '-' ∉ mm := not_mem_dash_of_all_isDig mm hmma
  have hyynd : '-' ∉ yyyy := not_mem_dash_of_all_isDig yyyy hyya
  have hsplit : splitDash ((⟨dd ++ '-' :: (mm ++ '-' :: yyyy)⟩ : String)).data
      = [dd, mm, yyyy] := by
    show splitDash (dd ++ '-' :: (mm ++ '-' :: yyyy)) = [dd, mm, yyyy]
    rw [splitDash_append dd _ hddnd, splitDash_append mm _ hmmnd,
      splitDash_of_not_mem yyyy hyynd]
  have hsplit2 : splitDash (yyyy ++ '-' :: (padStart2 mm ++ '-' :: padStart2 dd))
      = [yyyy, padStart2 mm, padStart2 dd] := by
    rw [splitDash_append _ _ hyynd,
      splitDash_append _ _ (not_mem_dash_padStart2 mm hmmnd),
      splitDash_of_not_mem _ (not_mem_dash_padStart2 dd hddnd)]
  have hts := jsDateTs_of_split _ _ _ _ hsplit2 hy4
    (padStart2_length mm hm1 hm2) (padStart2_length dd hd1 hd2)
    hyya (padStart2_all_isDig mm hmma) (padStart2_all_isDig dd hdda)
    (by rw [digitsToNat_padStart2 mm]; exact hmlo)
    (by rw [digitsToNat_padStart2 mm]; exact hmhi)
    (by rw [digitsToNat_padStart2 dd]; exact hdlo)
    (by rw [digitsToNat_padStart2 dd, digitsToNat_padStart2 mm]; exact hdhi)
  rw [parseDDMMYYYY_of_split _ dd mm yyyy hsplit, hts,
    digitsToNat_padStart2 mm, digitsToNat_padStart2 dd]

/-- Witness for C7 at the unpadded valid input `"5-6-2021"`. -/
theorem c7_parse_contract_witness :
    parseDDMMYYYY "5-6-2021"
      = some { iso := "2021-06-05".data, ts := some 1622851200000,
               raw := "5-6-2021" } := by
  have h := c7_parse_contract.2 ['5'] ['6'] ['2', '0', '2', '1']
    (by decide) (by decide) (by decide) (by decide) (by decide) (by decide)
    (by decide) (by decide) (by decide) (by decide) (by decide) (by decide)
  exact h

/-- C8: the Flattener produces exactly the concatenation, in stored order of
dates then subjects then images, of one record per image; in particular its
length is the sum over dates and subjects of the image counts. -/
theorem c8_flatten_contract (data : List DateGroup) :
    getFlattenedImages data
      = data.flatMap (fun d => d.subjects.flatMap
          (fun s => s.images.map (fun p => ⟨d.date, s.subject, p⟩)))
    ∧ (getFlattenedImages data).length
      = (data.map (fun d => (d.subjects.map (fun s => s.images.length)).sum)).sum := by
  refine ⟨getFlattenedImages_eq data, ?_⟩
  rw [getFlattenedImages_eq]
  simp [Function.comp_def, List.length_flatMap, List.length_map]

/-- C9: the Filter Engine never mutates its input (the global collection's
final value equals its initial value under the run model), and with both
filters disabled the output structurally equals the input. -/
theorem c9_filter_pure_identity (galleryData : List DateGroup) (fs : FilterState) :
    (runApplyCombinedFilter galleryData fs).1 = galleryData
    ∧ (fs.subjectEnabled = false → fs.dateEnabled = false →
        applyCombinedFilter galleryData fs = galleryData) := by
  refine ⟨rfl, fun hs hd => ?_⟩
  have h1 : getSelectedDateFilters fs = none := by
    unfold getSelectedDateFilters
    rw [if_neg (by simp [hd])]
  have h2 : getSelectedSubject fs = none := by
    unfold getSelectedSubject
    rw [if_neg (by simp [hs])]
  show applySubjectStage fs (applyDateStage fs galleryData) = galleryData
  rw [applyDateStage_eq_of_none h1, applySubjectStage_eq_of_none h2]

/-- Witness for C9 with both filters disabled on the sample data. -/
theorem c9_filter_pure_identity_witness :
    applyCombinedFilter scenarioData wfsOff = scenarioData :=
  (c9_filter_pure_identity scenarioData wfsOff).2 rfl rfl

/-- C10: with both filters enabled and active selections, the date stage and
the subject stage of the Filter Engine commute. -/
theorem c10_stages_commute (data : List DateGroup) (fs : FilterState)
    (h1 : fs.dateEnabled = true) (h2 : fs.subjectEnabled = true)
    (h3 : fs.subjectValue ≠ "")
    (h4 : ¬(fs.dayValue = "" ∧ fs.monthValue = "" ∧ fs.yearValue = "")) :
    applyDateStage fs (applySubjectStage fs data)
      = applySubjectStage fs (applyDateStage fs data) :=
  stage_comm fs data

/-- Witness for C10 on the sample data with subject `"Physics"` and month
`"10"` selected. -/
theorem c10_stages_commute_witness :
    applyDateStage wfsBoth (applySubjectStage wfsBoth scenarioData)
      = applySubjectStage wfsBoth (applyDateStage wfsBoth scenarioData) :=
  c10_stages_commute scenarioData wfsBoth rfl rfl (by decide) (by decide)

end NaextroNotes
